import Mathlib

/-!
Shallow embedding of the link-persona-bot repository, and proofs about it.

The embedding mirrors, definition by definition:
  * `src/bot/state/conversation_manager.py` (per-channel persona binding and
    bounded conversation history),
  * `src/bot/config.py` (the hard-coded history constants),
  * `src/api/persona_loader.py` (the persona store and its query methods),
  * `src/api/fetcher.py` (article fetching, with the fetcher-local
    `ArticleFetchError` class),
  * `src/api/exceptions.py` (the API exception hierarchy),
  * `src/api/services/article_service.py` and
    `src/api/services/debate_service.py` (summary / debate pipelines),
  * `src/api/main.py` (the `/ingest` and `/debate` endpoint error mapping).

Python dictionaries are modelled as insertion-ordered association lists with
unique keys; external collaborators (HTTP fetch, HTML extraction, the LLM)
are parameters of the pipeline functions, since the code consumes them as
opaque services.
-/

namespace LinkPersonaBot

deriving instance DecidableEq for Except

/-! ## Python string primitives

Modelled on the character-list representation so that every operation
computes by kernel reduction. -/

/-- Model of Python `str.startswith(p)`. -/
def strStartsWith (s p : String) : Bool := p.data.isPrefixOf s.data

/-- Model of Python `str.strip()`: drop whitespace from both ends. -/
def pyStrip (s : String) : String :=
  ((s.data.dropWhile Char.isWhitespace).reverse.dropWhile
    Char.isWhitespace).reverse.asString

/-- Model of Python slicing `s[:n]`. -/
def pyTake (s : String) (n : Nat) : String := (s.data.take n).asString

/-! ## Python dict model: insertion-ordered association lists -/

/-- Model of Python `dict.get` / `d[k]` read: find the value stored at the
first (unique) occurrence of the key. -/
def dictLookup {κ α : Type} [DecidableEq κ] : List (κ × α) → κ → Option α
  | [], _ => none
  | (k', v) :: rest, k => if k = k' then some v else dictLookup rest k

/-- Model of Python `d[k] = v`: update in place when the key exists
(keeping its position, as Python dicts do), otherwise append at the end
(insertion order). -/
def dictInsert {κ α : Type} [DecidableEq κ] : List (κ × α) → κ → α → List (κ × α)
  | [], k, v => [(k, v)]
  | (k', v') :: rest, k, v =>
    if k = k' then (k', v) :: rest else (k', v') :: dictInsert rest k v

/-- Model of Python `del d[k]`: remove the (unique) entry with the key. -/
def dictErase {κ α : Type} [DecidableEq κ] : List (κ × α) → κ → List (κ × α)
  | [], _ => []
  | (k', v') :: rest, k => if k = k' then rest else (k', v') :: dictErase rest k

/-! ## `src/bot/models.py`: message and channel-state shapes -/

/-- The `ConversationMessage` TypedDict of `src/bot/models.py`: a `(role, content)`
pair. -/
structure ConversationMessage where
  role : String
  content : String
deriving DecidableEq, Repr

/-- The `ChannelState` TypedDict of `src/bot/models.py`. -/
structure ChannelState where
  persona_id : String
  history : List ConversationMessage
deriving DecidableEq, Repr

/-! ## `src/bot/config.py`: hard-coded constants -/

/-- The `BotSettings.conversation_history_limit` (src/bot/config.py line 54):
maximum number of stored history entries per channel. -/
def conversation_history_limit : Nat := 20

/-- The `BotSettings.conversation_context_window` (src/bot/config.py line 59):
default number of history entries returned to the LLM. -/
def conversation_context_window : Nat := 10

/-! ## `src/bot/state/conversation_manager.py` -/

/-- State of a `ConversationManager`: the two per-channel dicts
`_channel_personas : dict[int, str]` and
`_conversation_history : defaultdict[int, list[ConversationMessage]]`. -/
structure ConversationManager where
  channel_personas : List (Int × String)
  conversation_history : List (Int × List ConversationMessage)
deriving DecidableEq, Repr

/-- The `ConversationManager.__init__`: both dicts start empty. -/
def ConversationManager.init : ConversationManager := ⟨[], []⟩

/-- The history list currently associated with a channel (the value the
`defaultdict` read yields: the stored list, or `[]` when absent). -/
def ConversationManager.historyOf (s : ConversationManager) (ch : Int) :
    List ConversationMessage :=
  (dictLookup s.conversation_history ch).getD []

/-- Side effect of reading `self._conversation_history[channel_id]` on a
`defaultdict(list)`: when the key is absent, an empty-list entry is inserted
(at the end, in insertion order). -/
def ConversationManager.touchHistory (s : ConversationManager) (ch : Int) :
    ConversationManager :=
  match dictLookup s.conversation_history ch with
  | some _ => s
  | none => { s with conversation_history := s.conversation_history ++ [(ch, [])] }

/-- The `ConversationManager.set_persona` (lines 34-45). -/
def ConversationManager.set_persona (s : ConversationManager) (ch : Int)
    (persona_id : String) : ConversationManager :=
  { s with channel_personas := dictInsert s.channel_personas ch persona_id }

/-- The `ConversationManager.get_persona` (lines 47-56). -/
def ConversationManager.get_persona (s : ConversationManager) (ch : Int) :
    Option String :=
  dictLookup s.channel_personas ch

/-- The `ConversationManager.add_message` (lines 58-100): the `defaultdict` read
creates the entry, the message is appended, and when the length exceeds
`conversation_history_limit` the oldest `removed_count` entries are dropped. -/
def ConversationManager.add_message (s : ConversationManager) (ch : Int)
    (role content : String) : ConversationManager :=
  let message : ConversationMessage := ⟨role, content⟩
  let s1 := s.touchHistory ch
  let history := s1.historyOf ch ++ [message]
  let history2 :=
    if conversation_history_limit < history.length then
      history.drop (history.length - conversation_history_limit)
    else history
  { s1 with conversation_history := dictInsert s1.conversation_history ch history2 }

/-- The `ConversationManager.get_history` (lines 102-134): the `defaultdict` read
creates the entry; `limit = None` falls back to
`conversation_context_window`; a positive limit returns `history[-limit:]`
(the most recent `limit` entries), a non-positive limit returns the whole
history.  Returns the result together with the post-state. -/
def ConversationManager.get_history (s : ConversationManager) (ch : Int)
    (limit : Option Int) : List ConversationMessage × ConversationManager :=
  let s1 := s.touchHistory ch
  let history := s1.historyOf ch
  let lim : Int := limit.getD (conversation_context_window : Int)
  let result := if 0 < lim then history.drop (history.length - lim.toNat) else history
  (result, s1)

/-- The `ConversationManager.clear_history` (lines 136-148): delete the channel's
history entry when present. -/
def ConversationManager.clear_history (s : ConversationManager) (ch : Int) :
    ConversationManager :=
  if (dictLookup s.conversation_history ch).isSome then
    { s with conversation_history := dictErase s.conversation_history ch }
  else s

/-- The `ConversationManager.reset_persona` (lines 150-165): delete the channel's
persona binding when present, then clear its history. -/
def ConversationManager.reset_persona (s : ConversationManager) (ch : Int) :
    ConversationManager :=
  let s1 :=
    if (dictLookup s.channel_personas ch).isSome then
      { s with channel_personas := dictErase s.channel_personas ch }
    else s
  s1.clear_history ch

/-- The `ConversationManager.get_channel_state` (lines 167-179): combines
`get_persona` (with `""` for `None`) and `get_history` with the default
limit. -/
def ConversationManager.get_channel_state (s : ConversationManager) (ch : Int) :
    ChannelState × ConversationManager :=
  let pr := s.get_history ch none
  (⟨(s.get_persona ch).getD "", pr.1⟩, pr.2)

/-- The `ConversationManager.get_all_channels` (lines 181-189): the union of the
key sets of the two dicts (modelled as a duplicate-free list). -/
def ConversationManager.get_all_channels (s : ConversationManager) : List Int :=
  ((s.channel_personas.map Prod.fst) ++ (s.conversation_history.map Prod.fst)).dedup

/-- Statistics record returned by `ConversationManager.get_stats`. -/
structure Stats where
  total_channels : Nat
  channels_with_persona : Nat
  channels_with_history : Nat
  total_messages : Nat
deriving DecidableEq, Repr

/-- The `ConversationManager.get_stats` (lines 191-204). -/
def ConversationManager.get_stats (s : ConversationManager) : Stats where
  total_channels := s.get_all_channels.length
  channels_with_persona := s.channel_personas.length
  channels_with_history := s.conversation_history.length
  total_messages := (s.conversation_history.map (fun p => p.2.length)).sum

/-- Folding a whole sequence of `add_message` calls
`(channel, role, content)` over a starting state. -/
def ConversationManager.applyAdds (s : ConversationManager)
    (calls : List (Int × String × String)) : ConversationManager :=
  calls.foldl (fun t c => t.add_message c.1 c.2.1 c.2.2) s

/-- Well-formedness that every Python-dict state satisfies by construction:
keys are unique in both dicts. -/
def ConversationManager.WF (s : ConversationManager) : Prop :=
  (s.channel_personas.map Prod.fst).Nodup ∧
    (s.conversation_history.map Prod.fst).Nodup

instance : DecidablePred ConversationManager.WF := by
  unfold ConversationManager.WF
  infer_instance

/-! ## Dictionary lemmas -/

theorem dictLookup_insert_self {κ α : Type} [DecidableEq κ]
    (m : List (κ × α)) (k : κ) (v : α) :
    dictLookup (dictInsert m k v) k = some v := by
  induction m with
  | nil => simp [dictInsert, dictLookup]
  | cons hd tl ih =>
    obtain ⟨k', v'⟩ := hd
    by_cases hk : k = k'
    · simp [dictInsert, dictLookup, hk]
    · simp [dictInsert, dictLookup, hk, ih]

theorem dictLookup_insert_ne {κ α : Type} [DecidableEq κ]
    (m : List (κ × α)) (k k₂ : κ) (v : α) (h : k₂ ≠ k) :
    dictLookup (dictInsert m k v) k₂ = dictLookup m k₂ := by
  induction m with
  | nil => simp [dictInsert, dictLookup, h]
  | cons hd tl ih =>
    obtain ⟨k', v'⟩ := hd
    by_cases hk : k = k'
    · subst hk
      simp [dictInsert, dictLookup, h]
    · by_cases hk2 : k₂ = k'
      · simp [dictInsert, dictLookup, hk, hk2]
      · simp [dictInsert, dictLookup, hk, hk2, ih]

theorem dictLookup_append_of_none {κ α : Type} [DecidableEq κ]
    {m : List (κ × α)} {k : κ} (n : List (κ × α))
    (h : dictLookup m k = none) :
    dictLookup (m ++ n) k = dictLookup n k := by
  induction m with
  | nil => simp
  | cons hd tl ih =>
    obtain ⟨k', v'⟩ := hd
    by_cases hk : k = k'
    · simp [dictLookup, hk] at h
    · simp only [dictLookup, hk, if_false, List.cons_append] at h ⊢
      exact ih h

theorem dictLookup_append_of_some {κ α : Type} [DecidableEq κ]
    {m : List (κ × α)} {k : κ} {v : α} (n : List (κ × α))
    (h : dictLookup m k = some v) :
    dictLookup (m ++ n) k = some v := by
  induction m with
  | nil => simp [dictLookup] at h
  | cons hd tl ih =>
    obtain ⟨k', v'⟩ := hd
    by_cases hk : k = k'
    · simp only [dictLookup, hk, if_true, List.cons_append, if_pos rfl] at h ⊢
      exact h
    · simp only [dictLookup, hk, if_false, List.cons_append] at h ⊢
      exact ih h

theorem dictLookup_eq_none_of_not_mem {κ α : Type} [DecidableEq κ]
    {m : List (κ × α)} {k : κ} (h : k ∉ m.map Prod.fst) :
    dictLookup m k = none := by
  induction m with
  | nil => rfl
  | cons hd tl ih =>
    obtain ⟨k', v'⟩ := hd
    simp only [List.map_cons, List.mem_cons, not_or] at h
    simp [dictLookup, h.1, ih h.2]

theorem dictLookup_erase_self {κ α : Type} [DecidableEq κ]
    {m : List (κ × α)} (k : κ) (h : (m.map Prod.fst).Nodup) :
    dictLookup (dictErase m k) k = none := by
  induction m with
  | nil => rfl
  | cons hd tl ih =>
    obtain ⟨k', v'⟩ := hd
    simp only [List.map_cons, List.nodup_cons] at h
    by_cases hk : k = k'
    · subst hk
      simp only [dictErase, if_pos rfl]
      exact dictLookup_eq_none_of_not_mem h.1
    · simp only [dictErase, if_neg hk, dictLookup, if_neg hk]
      exact ih h.2

theorem dictLookup_erase_ne {κ α : Type} [DecidableEq κ]
    (m : List (κ × α)) (k k₂ : κ) (h : k₂ ≠ k) :
    dictLookup (dictErase m k) k₂ = dictLookup m k₂ := by
  induction m with
  | nil => rfl
  | cons hd tl ih =>
    obtain ⟨k', v'⟩ := hd
    by_cases hk : k = k'
    · subst hk
      simp [dictErase, dictLookup, h]
    · by_cases hk2 : k₂ = k'
      · simp [dictErase, dictLookup, hk, hk2]
      · simp [dictErase, dictLookup, hk, hk2, ih]

/-! ## ConversationManager lemmas -/

namespace ConversationManager

theorem historyOf_touch (s : ConversationManager) (ch ch' : Int) :
    (s.touchHistory ch).historyOf ch' = s.historyOf ch' := by
  unfold touchHistory
  cases h : dictLookup s.conversation_history ch with
  | some v => rfl
  | none =>
    simp only [historyOf]
    cases h' : dictLookup s.conversation_history ch' with
    | some v =>
      rw [dictLookup_append_of_some _ h']
    | none =>
      rw [dictLookup_append_of_none _ h']
      by_cases hc : ch' = ch
      · simp [dictLookup, hc]
      · simp [dictLookup, hc]

theorem lookup_touch_self (s : ConversationManager) (ch : Int) :
    dictLookup (s.touchHistory ch).conversation_history ch = some (s.historyOf ch) := by
  unfold touchHistory
  cases h : dictLookup s.conversation_history ch with
  | some v => simp [historyOf, h]
  | none =>
    simp only [historyOf, h, Option.getD_none]
    rw [dictLookup_append_of_none _ h]
    simp [dictLookup]

theorem add_message_historyOf_self (s : ConversationManager) (ch : Int)
    (role content : String) :
    (s.add_message ch role content).historyOf ch =
      (if conversation_history_limit < (s.historyOf ch).length + 1 then
        (s.historyOf ch ++ [ConversationMessage.mk role content]).drop
          ((s.historyOf ch).length + 1 - conversation_history_limit)
      else s.historyOf ch ++ [ConversationMessage.mk role content]) := by
  unfold add_message
  simp only [historyOf, dictLookup_insert_self]
  have ht : (s.touchHistory ch).historyOf ch = s.historyOf ch := historyOf_touch s ch ch
  simp only [historyOf] at ht
  rw [ht]
  simp [List.length_append]

theorem add_message_historyOf_ne (s : ConversationManager) (ch ch' : Int)
    (role content : String) (h : ch' ≠ ch) :
    (s.add_message ch role content).historyOf ch' = s.historyOf ch' := by
  unfold add_message
  simp only [historyOf]
  rw [dictLookup_insert_ne _ _ _ _ h]
  have ht : (s.touchHistory ch).historyOf ch' = s.historyOf ch' := historyOf_touch s ch ch'
  simpa [historyOf] using ht

theorem add_message_length_le (s : ConversationManager) (ch : Int)
    (role content : String) :
    ((s.add_message ch role content).historyOf ch).length ≤ conversation_history_limit := by
  rw [add_message_historyOf_self]
  by_cases h : conversation_history_limit < (s.historyOf ch).length + 1
  · simp only [if_pos h, List.length_drop, List.length_append, List.length_cons,
      List.length_nil]
    omega
  · simp only [if_neg h, List.length_append, List.length_cons, List.length_nil]
    omega

theorem applyAdds_length_le (calls : List (Int × String × String))
    (s : ConversationManager)
    (h : ∀ ch, (s.historyOf ch).length ≤ conversation_history_limit) :
    ∀ ch, ((s.applyAdds calls).historyOf ch).length ≤ conversation_history_limit := by
  induction calls generalizing s with
  | nil => exact h
  | cons c rest ih =>
    refine ih (s.add_message c.1 c.2.1 c.2.2) ?_
    intro ch
    by_cases hc : ch = c.1
    · subst hc
      exact add_message_length_le s c.1 c.2.1 c.2.2
    · rw [add_message_historyOf_ne s c.1 ch c.2.1 c.2.2 hc]
      exact h ch

theorem get_history_fst (s : ConversationManager) (ch : Int) (limOpt : Option Int) :
    (s.get_history ch limOpt).1 =
      (if 0 < limOpt.getD (conversation_context_window : Int) then
        (s.historyOf ch).drop
          ((s.historyOf ch).length - (limOpt.getD (conversation_context_window : Int)).toNat)
      else s.historyOf ch) := by
  simp only [ConversationManager.get_history, historyOf_touch]

theorem get_persona_clear_history (s : ConversationManager) (ch ch' : Int) :
    (s.clear_history ch).get_persona ch' = s.get_persona ch' := by
  unfold ConversationManager.clear_history
  by_cases h : (dictLookup s.conversation_history ch).isSome <;> simp [h, get_persona]

theorem get_persona_reset_persona (s : ConversationManager) (ch : Int)
    (hp : (s.channel_personas.map Prod.fst).Nodup) :
    (s.reset_persona ch).get_persona ch = none := by
  unfold ConversationManager.reset_persona
  rw [get_persona_clear_history]
  by_cases h1 : (dictLookup s.channel_personas ch).isSome
  · simp only [h1, if_true, get_persona]
    exact dictLookup_erase_self ch hp
  · simp only [h1, if_false, get_persona]
    simpa using h1

theorem lookup_clear_history_self (s : ConversationManager) (ch : Int)
    (hh : (s.conversation_history.map Prod.fst).Nodup) :
    dictLookup (s.clear_history ch).conversation_history ch = none := by
  unfold ConversationManager.clear_history
  by_cases h2 : (dictLookup s.conversation_history ch).isSome
  · rw [if_pos h2]
    exact dictLookup_erase_self ch hh
  · rw [if_neg h2]
    simpa using h2

theorem lookup_reset_persona_history (s : ConversationManager) (ch : Int)
    (hh : (s.conversation_history.map Prod.fst).Nodup) :
    dictLookup (s.reset_persona ch).conversation_history ch = none := by
  simp only [ConversationManager.reset_persona]
  by_cases h1 : (dictLookup s.channel_personas ch).isSome
  · rw [if_pos h1]
    exact lookup_clear_history_self
      { s with channel_personas := dictErase s.channel_personas ch } ch hh
  · rw [if_neg h1]
    exact lookup_clear_history_self s ch hh

end ConversationManager

/-- Demo state used by witnesses: a persona bound on channel 1 and two
messages stored there. -/
def demoState : ConversationManager :=
  ((ConversationManager.init.set_persona 1 "tsundere").add_message
    1 "user" "こんにちは").add_message 1 "assistant" "べ、別に"

/-- C1: over every sequence of `add_message` calls starting from the fresh
manager, no channel's stored history ever exceeds
`conversation_history_limit` (= 20); moreover each `add_message` leaves the
channel's history a suffix of "old history + new message" of length
`min (old length + 1) 20`, i.e. the oldest entries are evicted first and the
relative order of the remaining messages is preserved. -/
theorem c1_history_cap_and_fifo_trim :
    (∀ (calls : List (Int × String × String)) (ch : Int),
        ((ConversationManager.init.applyAdds calls).historyOf ch).length
          ≤ conversation_history_limit) ∧
    (∀ (s : ConversationManager) (ch : Int) (role content : String),
        ((s.add_message ch role content).historyOf ch).IsSuffix
            (s.historyOf ch ++ [ConversationMessage.mk role content]) ∧
        ((s.add_message ch role content).historyOf ch).length
          = min ((s.historyOf ch).length + 1) conversation_history_limit) := by
  constructor
  · intro calls ch
    refine ConversationManager.applyAdds_length_le calls ConversationManager.init ?_ ch
    intro ch'
    simp [ConversationManager.init, ConversationManager.historyOf, dictLookup]
  · intro s ch role content
    rw [ConversationManager.add_message_historyOf_self]
    by_cases h : conversation_history_limit < (s.historyOf ch).length + 1
    · simp only [if_pos h]
      refine ⟨?_, ?_⟩
      · exact List.drop_suffix _ _
      · simp only [List.length_drop, List.length_append, List.length_cons,
          List.length_nil]
        omega
    · simp only [if_neg h]
      refine ⟨List.suffix_rfl, ?_⟩
      simp only [List.length_append, List.length_cons, List.length_nil]
      omega

/-- C4: `reset_persona` removes the channel's persona binding and clears its
history: afterwards `get_persona` yields `None` and `get_history` yields the
empty list, whether or not a persona was bound before.  (The well-formedness
hypothesis — unique dict keys — holds for every Python dict state.) -/
theorem c4_reset_persona_clears_binding_and_history
    (s : ConversationManager) (ch : Int) (hwf : s.WF) :
    (s.reset_persona ch).get_persona ch = none ∧
    ((s.reset_persona ch).get_history ch none).1 = [] := by
  obtain ⟨hp, hh⟩ := hwf
  refine ⟨ConversationManager.get_persona_reset_persona s ch hp, ?_⟩
  rw [ConversationManager.get_history_fst]
  have h0 : (s.reset_persona ch).historyOf ch = [] := by
    unfold ConversationManager.historyOf
    rw [ConversationManager.lookup_reset_persona_history s ch hh]
    rfl
  rw [h0]
  simp

/-- Witness for C4 at a concrete state. -/
theorem c4_witness :
    demoState.WF ∧
    ((demoState.reset_persona 1).get_persona 1 = none ∧
      ((demoState.reset_persona 1).get_history 1 none).1 = []) :=
  ⟨by decide, c4_reset_persona_clears_binding_and_history demoState 1 (by decide)⟩

/-- C5: for a positive limit `n`, `get_history` returns exactly the most
recent `min n (length h)` stored messages in stored order (a suffix of the
stored history of that exact length); with the limit omitted (`None`) the
configured default `conversation_context_window` (= 10) is used. -/
theorem c5_get_history_most_recent (s : ConversationManager) (ch : Int)
    (n : Int) (hn : 0 < n) :
    ((s.get_history ch (some n)).1).IsSuffix (s.historyOf ch) ∧
    (s.get_history ch (some n)).1.length = min n.toNat (s.historyOf ch).length ∧
    (s.get_history ch none).1
      = (s.get_history ch (some ((conversation_context_window : Nat) : Int))).1 := by
  refine ⟨?_, ?_, ?_⟩
  · rw [ConversationManager.get_history_fst]
    simp only [Option.getD_some, if_pos hn]
    exact List.drop_suffix _ _
  · rw [ConversationManager.get_history_fst]
    simp only [Option.getD_some, if_pos hn, List.length_drop]
    omega
  · rw [ConversationManager.get_history_fst, ConversationManager.get_history_fst]
    rfl

/-- Witness for C5 at a concrete state and limit. -/
theorem c5_witness :
    (0 : Int) < 3 ∧
    (((demoState.get_history 1 (some 3)).1).IsSuffix (demoState.historyOf 1) ∧
      (demoState.get_history 1 (some 3)).1.length
        = min (Int.toNat 3) (demoState.historyOf 1).length ∧
      (demoState.get_history 1 none).1
        = (demoState.get_history 1 (some ((conversation_context_window : Nat) : Int))).1) :=
  ⟨by decide, c5_get_history_most_recent demoState 1 3 (by decide)⟩

/-- C8: reading the history of a never-seen channel is not a pure read: the
`defaultdict` inserts an empty entry, so the channel gains a stored
`some []` history, shows up in `get_all_channels`, and bumps
`channels_with_history` in `get_stats`; `get_channel_state` shares exactly
this side effect (its post-state is `get_history`'s post-state). -/
theorem c8_get_history_creates_entry (s : ConversationManager) (ch : Int)
    (h : dictLookup s.conversation_history ch = none) :
    dictLookup ((s.get_history ch none).2).conversation_history ch = some [] ∧
    ch ∈ ((s.get_history ch none).2).get_all_channels ∧
    ((s.get_history ch none).2).get_stats.channels_with_history
      = s.get_stats.channels_with_history + 1 ∧
    (s.get_channel_state ch).2 = (s.get_history ch none).2 := by
  have hs : (s.get_history ch none).2
      = { s with conversation_history := s.conversation_history ++ [(ch, [])] } := by
    unfold ConversationManager.get_history ConversationManager.touchHistory
    simp [h]
  refine ⟨?_, ?_, ?_, rfl⟩
  · rw [hs]
    simp only
    rw [dictLookup_append_of_none _ h]
    simp [dictLookup]
  · rw [hs]
    unfold ConversationManager.get_all_channels
    simp [List.mem_dedup]
  · rw [hs]
    unfold ConversationManager.get_stats
    simp

/-- Witness for C8 at a concrete fresh channel. -/
theorem c8_witness :
    dictLookup demoState.conversation_history 99 = none ∧
    (dictLookup ((demoState.get_history 99 none).2).conversation_history 99 = some [] ∧
      99 ∈ ((demoState.get_history 99 none).2).get_all_channels ∧
      ((demoState.get_history 99 none).2).get_stats.channels_with_history
        = demoState.get_stats.channels_with_history + 1 ∧
      (demoState.get_channel_state 99).2 = (demoState.get_history 99 none).2) :=
  ⟨by decide, c8_get_history_creates_entry demoState 99 (by decide)⟩

/-- C9: a zero or negative limit makes `get_history` return the entire
stored history of the channel, oldest to newest. -/
theorem c9_nonpositive_limit_returns_all (s : ConversationManager) (ch : Int)
    (n : Int) (h : n ≤ 0) :
    (s.get_history ch (some n)).1 = s.historyOf ch := by
  rw [ConversationManager.get_history_fst]
  simp only [Option.getD_some]
  rw [if_neg (by omega)]

/-- Witness for C9 at a concrete state and non-positive limit. -/
theorem c9_witness :
    (-2 : Int) ≤ 0 ∧ (demoState.get_history 1 (some (-2))).1 = demoState.historyOf 1 :=
  ⟨by decide, c9_nonpositive_limit_returns_all demoState 1 (-2) (by decide)⟩

/-- C10: `set_persona` only changes the target channel's persona binding: it
sets it to the given id, leaves the whole conversation-history dict (hence
every channel's history) untouched, and leaves every other channel's persona
binding unchanged. -/
theorem c10_set_persona_frame (s : ConversationManager) (ch ch' : Int)
    (pid : String) (h : ch' ≠ ch) :
    (s.set_persona ch pid).get_persona ch = some pid ∧
    (s.set_persona ch pid).conversation_history = s.conversation_history ∧
    (s.set_persona ch pid).get_persona ch' = s.get_persona ch' := by
  refine ⟨?_, rfl, ?_⟩
  · unfold ConversationManager.set_persona ConversationManager.get_persona
    exact dictLookup_insert_self s.channel_personas ch pid
  · unfold ConversationManager.set_persona ConversationManager.get_persona
    exact dictLookup_insert_ne s.channel_personas ch ch' pid h

/-- Witness for C10 at a concrete state. -/
theorem c10_witness :
    (2 : Int) ≠ 5 ∧
    ((demoState.set_persona 5 "bob").get_persona 5 = some "bob" ∧
      (demoState.set_persona 5 "bob").conversation_history = demoState.conversation_history ∧
      (demoState.set_persona 5 "bob").get_persona 2 = demoState.get_persona 2) :=
  ⟨by decide, c10_set_persona_frame demoState 5 2 "bob" (by decide)⟩

/-! ## `src/api/persona_loader.py`: personas and the loader -/

/-- The `PersonaExample` dataclass of `src/api/persona_loader.py`. -/
structure PersonaExample where
  input : String
  output : String
deriving DecidableEq, Repr

/-- The `Persona` dataclass of `src/api/persona_loader.py`. -/
structure Persona where
  id : String
  name : String
  icon : String
  color : Nat
  description : String
  system_prompt : String
  examples : List PersonaExample
deriving DecidableEq, Repr

/-- The `Persona.get_system_message`. -/
def Persona.get_system_message (p : Persona) : String := p.system_prompt

/-- The `Persona.get_display_name`. -/
def Persona.get_display_name (p : Persona) : String := p.icon ++ " " ++ p.name

/-- State of a `PersonaLoader` after construction: the `_personas`
dict keyed by persona id. -/
structure PersonaLoader where
  personas : List (String × Persona)
deriving DecidableEq, Repr

/-- The `dict.copy()` on the personas dict: a shallow copy, equal to the
original as a mapping but a distinct object. -/
def dictCopy (m : List (String × Persona)) : List (String × Persona) :=
  m.map (fun kv => kv)

/-- The `PersonaLoader.get_persona` (lines 177-179): `self._personas.get(id)`. -/
def PersonaLoader.get_persona (L : PersonaLoader) (persona_id : String) :
    Option Persona :=
  dictLookup L.personas persona_id

/-- The `PersonaLoader.get_all_personas` (lines 181-183): returns
`self._personas.copy()`. -/
def PersonaLoader.get_all_personas (L : PersonaLoader) :
    List (String × Persona) :=
  dictCopy L.personas

/-- The `PersonaLoader.list_persona_ids` (lines 185-187). -/
def PersonaLoader.list_persona_ids (L : PersonaLoader) : List String :=
  L.personas.map Prod.fst

/-- The `PersonaLoader.list_persona_names` (lines 189-191). -/
def PersonaLoader.list_persona_names (L : PersonaLoader) : List String :=
  L.personas.map (fun kv => kv.2.get_display_name)

/-- One query call against a `PersonaLoader` (the four public read
methods). -/
inductive LoaderQuery where
  | getPersonaQ (persona_id : String)
  | getAllPersonasQ
  | listPersonaIdsQ
  | listPersonaNamesQ
deriving DecidableEq, Repr

/-- The value a loader query returns. -/
inductive LoaderResult where
  | personaOpt (p : Option Persona)
  | personaMap (m : List (String × Persona))
  | idList (l : List String)
  | nameList (l : List String)
deriving DecidableEq, Repr

/-- Running one query: the result together with the loader state after the
call, read off from the method bodies (none of which assigns to
`self._personas`). -/
def PersonaLoader.runQuery (L : PersonaLoader) (q : LoaderQuery) :
    LoaderResult × PersonaLoader :=
  match q with
  | .getPersonaQ pid => (.personaOpt (L.get_persona pid), L)
  | .getAllPersonasQ => (.personaMap L.get_all_personas, L)
  | .listPersonaIdsQ => (.idList L.list_persona_ids, L)
  | .listPersonaNamesQ => (.nameList L.list_persona_names, L)

/-- Running a sequence of queries, keeping only the final loader state. -/
def PersonaLoader.runQueries (L : PersonaLoader) (qs : List LoaderQuery) :
    PersonaLoader :=
  qs.foldl (fun M q => (M.runQuery q).2) L

/-- The pair of dicts after `get_all_personas`: the loader's own
`_personas` dict and the caller's copy.  `dict.copy()` makes them distinct
dict objects, so caller-side key mutations act on the copy only. -/
structure CopyView where
  loaderDict : List (String × Persona)
  callerDict : List (String × Persona)
deriving DecidableEq, Repr

/-- Calling `get_all_personas` and keeping both dict objects. -/
def PersonaLoader.get_all_personas_copy (L : PersonaLoader) : CopyView :=
  ⟨L.personas, dictCopy L.personas⟩

/-- A dict mutation the caller may perform on its copy. -/
inductive DictOp where
  | insertOp (k : String) (v : Persona)
  | eraseOp (k : String)
deriving DecidableEq, Repr

/-- A caller-side mutation of the copied dict: it acts on the copy, the
loader's dict being a different object. -/
def CopyView.callerStep (v : CopyView) (op : DictOp) : CopyView :=
  match op with
  | .insertOp k p => ⟨v.loaderDict, dictInsert v.callerDict k p⟩
  | .eraseOp k => ⟨v.loaderDict, dictErase v.callerDict k⟩

/-! ## Exceptions

`src/api/exceptions.py` defines `ArticleFetchError`, `PersonaNotFoundError`,
`LLMError`, … as subclasses of `LinkPersonaBotError`.  Independently,
`src/api/fetcher.py` (lines 14-16) defines its own `ArticleFetchError` as a
direct subclass of `Exception`.  These are two distinct classes with the
same name, so an `except ArticleFetchError` clause that imported the name
from `api.exceptions` does not catch the exception the fetcher raises.  The
constructors below keep the two classes apart. -/

/-- A raised Python exception, tagged by its class. -/
inductive PyExc where
  /-- The `fetcher.ArticleFetchError` — the fetcher-local class (subclass of
  `Exception` only). -/
  | fetcherArticleFetchError (msg : String)
  /-- The `api.exceptions.ArticleFetchError`. -/
  | apiArticleFetchError (msg : String)
  /-- The `api.exceptions.PersonaNotFoundError`. -/
  | personaNotFoundError (msg : String)
  /-- The `api.exceptions.LLMError`. -/
  | llmError (msg : String)
  /-- any other `Exception`. -/
  | otherError (msg : String)
deriving DecidableEq, Repr

/-! ## `src/api/fetcher.py` -/

/-- The `ArticleFetcher.max_content_length` default (line 25). -/
def max_content_length : Nat := 2000

/-- The dict `ArticleFetcher.fetch_article` returns. -/
structure Article where
  url : String
  title : Option String
  content : String
  truncated : Bool
deriving DecidableEq, Repr

/-- The `ArticleFetcher.fetch_article` (lines 39-89).  The outbound HTTP call
(`_fetch_html`) and the trafilatura extraction (`_extract_content`) are
opaque collaborators, passed as functions: `htmlFetch` yields the HTML or an
`httpx.HTTPError` message, `extract` yields `(title?, stripped content)` or
`None`.  The scheme check happens before the `try` block, so its error
message is unwrapped; the extraction-failure `ArticleFetchError` raised
inside the `try` is re-caught by the trailing `except Exception` clause and
re-wrapped with an `Unexpected error: ` prefix. -/
def fetch_article (htmlFetch : String → Except String String)
    (extract : String → Option (Option String × String)) (url : String) :
    Except PyExc Article :=
  if !(strStartsWith url "http://" || strStartsWith url "https://") then
    .error (.fetcherArticleFetchError ("Invalid URL scheme: " ++ url))
  else
    match htmlFetch url with
    | .error e => .error (.fetcherArticleFetchError ("Failed to fetch URL: " ++ e))
    | .ok html =>
      match extract html with
      | none =>
        .error (.fetcherArticleFetchError
          "Unexpected error: Failed to extract article content")
      | some (title, content) =>
        if content = "" then
          .error (.fetcherArticleFetchError
            "Unexpected error: Failed to extract article content")
        else
          let truncated := decide (max_content_length < content.length)
          let content2 :=
            if truncated then pyTake content max_content_length ++ "..." else content
          .ok ⟨url, title, content2, truncated⟩

/-! ## `src/api/config.py` constants -/

/-- The `APISettings.article_max_length` (line 53). -/
def article_max_length : Nat := 2000

/-- The `APISettings.summary_min_length` (line 58). -/
def summary_min_length : Nat := 100

/-- The `APISettings.summary_max_length` (line 63). -/
def summary_max_length : Nat := 150

/-! ## `src/api/models/responses.py` response shapes -/

/-- The `PersonaInfo` TypedDict. -/
structure PersonaInfo where
  name : String
  icon : String
  color : Nat
  description : String
deriving DecidableEq, Repr

/-- The `IngestResponse` TypedDict.  `article_title` is built with
`article.get("title", …)` where the `"title"` key is always present (set to
the possibly-`None` extracted title), so it carries the extracted title
verbatim. -/
structure IngestResponse where
  summary : String
  persona : PersonaInfo
  article_title : Option String
  article_url : String
deriving DecidableEq, Repr

/-- The `DebateResponse` TypedDict. -/
structure DebateResponse where
  response : String
  persona : PersonaInfo
  context_used : Nat
deriving DecidableEq, Repr

/-- Truthiness of an `Optional[str]` (`if persona_id:`): `None` and the
empty string are falsy. -/
def optTruthy (s : Option String) : Bool :=
  match s with
  | none => false
  | some str => !(str == "")

/-! ## `src/api/services/article_service.py` -/

namespace ArticleService

/-- The `ArticleService._select_persona` (lines 143-173): with a truthy id, look
it up and raise `PersonaNotFoundError` when absent; otherwise use the first
loaded persona (`next(iter(get_all_personas().values()))`), raising
`PersonaNotFoundError` when none are loaded. -/
def select_persona (loader : PersonaLoader) (persona_id : Option String) :
    Except PyExc Persona :=
  if optTruthy persona_id then
    match loader.get_persona (persona_id.getD "") with
    | some p => .ok p
    | none =>
      .error (.personaNotFoundError
        ("Persona '" ++ persona_id.getD "" ++ "' not found"))
  else
    match loader.get_all_personas with
    | [] => .error (.personaNotFoundError "No personas available")
    | (_, p) :: _ => .ok p

/-- The f-string prompt built in `_generate_persona_summary` (lines
193-200); Python renders a `None` title as `None`. -/
def build_summary_prompt (article : Article) : String :=
  "以下の記事を、あなたの人格で" ++ toString summary_min_length ++ "〜"
    ++ toString summary_max_length ++ "字で要約してください。\n\n記事タイトル: "
    ++ (match article.title with | some t => t | none => "None")
    ++ "\n\n記事本文:\n" ++ pyTake article.content article_max_length
    ++ "\n\n要約を生成してください:"

/-- The `ArticleService._generate_persona_summary` (lines 175-217): one LLM call
with the persona's system message; any failure is wrapped as
`LLMError("Failed to generate summary with LLM")`; the summary is
stripped. -/
def generate_persona_summary (llm : String → String → Except String String)
    (article : Article) (persona : Persona) : Except PyExc String :=
  match llm persona.get_system_message (build_summary_prompt article) with
  | .ok summary => .ok (pyStrip summary)
  | .error _ => .error (.llmError "Failed to generate summary with LLM")

/-- The `ArticleService.generate_summary` (lines 48-141): fetch, select persona,
summarize, build the response; the trailing except-clauses re-raise
`api.exceptions.ArticleFetchError`, `PersonaNotFoundError` and `LLMError`
unchanged and wrap every other exception — including the fetcher-local
`ArticleFetchError`, which the imported name does not match — as
`LLMError("Failed to generate summary")`. -/
def generate_summary (loader : PersonaLoader)
    (htmlFetch : String → Except String String)
    (extract : String → Option (Option String × String))
    (llm : String → String → Except String String)
    (url : String) (persona_id : Option String) :
    Except PyExc IngestResponse :=
  let body : Except PyExc IngestResponse := do
    let article ← fetch_article htmlFetch extract url
    let persona ← select_persona loader persona_id
    let summary ← generate_persona_summary llm article persona
    pure { summary := summary
           persona := ⟨persona.name, persona.icon, persona.color, persona.description⟩
           article_title := article.title
           article_url := article.url }
  match body with
  | .ok r => .ok r
  | .error (.apiArticleFetchError m) => .error (.apiArticleFetchError m)
  | .error (.personaNotFoundError m) => .error (.personaNotFoundError m)
  | .error (.llmError m) => .error (.llmError m)
  | .error _ => .error (.llmError "Failed to generate summary")

end ArticleService

/-! ## `src/api/services/debate_service.py` -/

namespace DebateService

/-- Persona resolution in `DebateService.generate_debate` (lines 75-81):
look up a truthy id, and on *any* miss — unknown id included — fall back to
the first loaded persona, or `None` when none are loaded.  No
`PersonaNotFoundError` is raised. -/
def debate_persona (loader : PersonaLoader) (persona_id : Option String) :
    Option Persona :=
  let persona :=
    if optTruthy persona_id then loader.get_persona (persona_id.getD "") else none
  match persona with
  | some p => some p
  | none => loader.get_all_personas.head?.map Prod.snd

/-- The `DebateService._generate_conversation_response` (lines 129-165): prepend
the system prompt (the persona's, or the generic assistant prompt), send the
history to the LLM, strip; failures become
`LLMError("Failed to generate conversation response")`. -/
def conversation_response
    (chat : List ConversationMessage → Except String String)
    (conversation_history : List ConversationMessage)
    (persona : Option Persona) : Except PyExc String :=
  let system_prompt :=
    match persona with
    | some p => p.get_system_message
    | none => "あなたは親切で役に立つアシスタントです。"
  match chat (⟨"system", system_prompt⟩ :: conversation_history) with
  | .ok r => .ok (pyStrip r)
  | .error _ => .error (.llmError "Failed to generate conversation response")

/-- The `DebateService._extract_stance` (lines 217-251). -/
def extract_stance (chat : List ConversationMessage → Except String String)
    (article : Article) : Except PyExc String :=
  let stance_prompt :=
    "以下の記事の主な主張やメッセージを" ++ toString summary_min_length
      ++ "字程度で要約してください。\n\n記事タイトル: "
      ++ (match article.title with | some t => t | none => "None")
      ++ "\n記事本文:\n" ++ pyTake article.content article_max_length ++ "\n\n主張:"
  match chat [⟨"system", "あなたは記事の主張を客観的に分析する専門家です。"⟩,
      ⟨"user", stance_prompt⟩] with
  | .ok r => .ok (pyStrip r)
  | .error _ => .error (.llmError "Failed to extract stance")

/-- The `DebateService._generate_counter_argument` (lines 253-286). -/
def generate_counter_argument
    (chat : List ConversationMessage → Except String String)
    (original_stance : String) : Except PyExc String :=
  let counter_prompt :=
    "以下の主張に対して、反対の立場から説得力のある反論を"
      ++ toString summary_max_length ++ "字程度で生成してください。\n\n元の主張:\n"
      ++ original_stance ++ "\n\n反論:"
  match chat [⟨"system", "あなたは批判的思考を持つディベーターです。建設的な反論を生成してください。"⟩,
      ⟨"user", counter_prompt⟩] with
  | .ok r => .ok (pyStrip r)
  | .error _ => .error (.llmError "Failed to generate counter argument")

/-- The `DebateService._generate_debate_summary` (lines 288-329). -/
def generate_debate_summary
    (chat : List ConversationMessage → Except String String)
    (original_stance counter_argument : String) : Except PyExc String :=
  let debate_summary_prompt :=
    "以下の2つの主張について、簡潔なディベートのまとめを"
      ++ toString summary_min_length ++ "字程度で生成してください。\n\n【元の主張】\n"
      ++ original_stance ++ "\n\n【反論】\n" ++ counter_argument ++ "\n\nまとめ:"
  match chat [⟨"system", "あなたは中立的な立場でディベートをまとめる司会者です。"⟩,
      ⟨"user", debate_summary_prompt⟩] with
  | .ok r => .ok (pyStrip r)
  | .error _ => .error (.llmError "Failed to generate debate summary")

/-- The `DebateService._generate_article_debate` (lines 167-215). -/
def article_debate (htmlFetch : String → Except String String)
    (extract : String → Option (Option String × String))
    (chat : List ConversationMessage → Except String String)
    (url : String) (original_summary : Option String) : Except PyExc String := do
  let article ← fetch_article htmlFetch extract url
  let original_stance ←
    match original_summary with
    | some s => pure s
    | none => extract_stance chat article
  let counter_argument ← generate_counter_argument chat original_stance
  let debate_summary ← generate_debate_summary chat original_stance counter_argument
  pure ("【元の主張】\n" ++ pyStrip original_stance ++ "\n\n【反論】\n"
    ++ pyStrip counter_argument ++ "\n\n【まとめ】\n" ++ pyStrip debate_summary)

/-- The `DebateService.generate_debate` (lines 43-127): resolve the persona with
fallback, answer from the conversation history when one is given, otherwise
run the article-based debate; `api.exceptions.ArticleFetchError` and
`LLMError` re-raise unchanged, everything else is wrapped as
`LLMError("Failed to generate debate")`. -/
def generate_debate (loader : PersonaLoader)
    (htmlFetch : String → Except String String)
    (extract : String → Option (Option String × String))
    (chat : List ConversationMessage → Except String String)
    (url : String) (original_summary : Option String)
    (persona_id : Option String)
    (conversation_history : List ConversationMessage) :
    Except PyExc DebateResponse :=
  let persona := debate_persona loader persona_id
  let body : Except PyExc String :=
    if !conversation_history.isEmpty then
      conversation_response chat conversation_history persona
    else
      article_debate htmlFetch extract chat url original_summary
  match body with
  | .ok response_text =>
    .ok { response := response_text
          persona :=
            match persona with
            | some p => ⟨p.name, p.icon, p.color, p.description⟩
            | none => ⟨"アシスタント", "💬", 0x5865F2, "親切なアシスタント"⟩
          context_used := conversation_history.length }
  | .error (.apiArticleFetchError m) => .error (.apiArticleFetchError m)
  | .error (.llmError m) => .error (.llmError m)
  | .error _ => .error (.llmError "Failed to generate debate")

end DebateService

/-! ## `src/api/main.py` endpoints -/

/-- The `HTTPException` an endpoint raises: status code and detail. -/
structure HttpError where
  status_code : Nat
  detail : String
deriving DecidableEq, Repr

/-- The `ingest_url` (`POST /ingest`, lines 134-215): run `generate_summary` and
map `api.exceptions.ArticleFetchError` → 400, `PersonaNotFoundError` → 404,
`LLMError` → 500 (each with its user-facing message), anything else → a
generic 500. -/
def ingest_url (loader : PersonaLoader)
    (htmlFetch : String → Except String String)
    (extract : String → Option (Option String × String))
    (llm : String → String → Except String String)
    (url : String) (persona_id : Option String) :
    Except HttpError IngestResponse :=
  match ArticleService.generate_summary loader htmlFetch extract llm url persona_id with
  | .ok r => .ok r
  | .error (.apiArticleFetchError m) =>
    .error ⟨400, "記事の取得に失敗しました: " ++ m⟩
  | .error (.personaNotFoundError m) =>
    .error ⟨404, "ペルソナが見つかりません: " ++ m⟩
  | .error (.llmError m) =>
    .error ⟨500, "要約の生成に失敗しました: " ++ m⟩
  | .error _ => .error ⟨500, "内部サーバーエラーが発生しました"⟩

/-- The `debate_article` (`POST /debate`, lines 218-292): append the user
message to the submitted history, call `generate_debate` with `url=""` and
no original summary, and map `PersonaNotFoundError` → 404, `LLMError` → 500,
anything else → a generic 500. -/
def debate_article (loader : PersonaLoader)
    (htmlFetch : String → Except String String)
    (extract : String → Option (Option String × String))
    (chat : List ConversationMessage → Except String String)
    (persona_id : String) (user_message : String)
    (conversation_history : List ConversationMessage) :
    Except HttpError DebateResponse :=
  let full_history := conversation_history ++ [⟨"user", user_message⟩]
  match DebateService.generate_debate loader htmlFetch extract chat ""
      none (some persona_id) full_history with
  | .ok r => .ok r
  | .error (.personaNotFoundError m) =>
    .error ⟨404, "ペルソナが見つかりません: " ++ m⟩
  | .error (.llmError m) =>
    .error ⟨500, "レスポンスの生成に失敗しました: " ++ m⟩
  | .error _ => .error ⟨500, "内部サーバーエラーが発生しました"⟩

/-! ## Fixtures for witnesses and counterexamples -/

/-- A concrete persona, as the loader would build it from a YAML file
`alice.yaml`. -/
def personaAlice : Persona :=
  ⟨"alice", "アリス", "🎀", 0xFF66AA, "明るい案内役", "あなたはアリスです。", []⟩

/-- A loader that loaded exactly one persona file. -/
def testLoader : PersonaLoader := ⟨[("alice", personaAlice)]⟩

/-- An HTTP-fetch stub that always fails with an `httpx` error. -/
def htmlFetchFail : String → Except String String :=
  fun _ => .error "Connection refused"

/-- An HTTP-fetch stub that always succeeds. -/
def htmlFetchOk : String → Except String String :=
  fun _ => .ok "<html>stub</html>"

/-- An extraction stub that always fails. -/
def extractNone : String → Option (Option String × String) :=
  fun _ => none

/-- An extraction stub with a fixed title and body. -/
def extractOk : String → Option (Option String × String) :=
  fun _ => some (some "記事タイトル", "記事本文です")

/-- A chat-completion stub with a fixed reply. -/
def chatOk : List ConversationMessage → Except String String :=
  fun _ => .ok "こんにちは"

/-- Reducing `Except` binds once the first step is `ok`. -/
theorem except_bind_ok {ε α β : Type} (a : α) (f : α → Except ε β) :
    ((Except.ok a : Except ε α) >>= f) = f a := rfl

/-- Reducing `Except` binds once the first step is `error`. -/
theorem except_bind_error {ε α β : Type} (e : ε) (f : α → Except ε β) :
    ((Except.error e : Except ε α) >>= f) = Except.error e := rfl

/-- The `pure` in the `Except` monad is `Except.ok`. -/
theorem except_pure {ε α : Type} (a : α) :
    (pure a : Except ε α) = Except.ok a := rfl

/-! ## Claim theorems for the API side -/

/-- C3 is a code bug: on `POST /ingest` with a well-formed URL whose HTTP
fetch fails, the fetcher raises *its own* `ArticleFetchError` class, which
the `except ArticleFetchError` clauses (bound to
`api.exceptions.ArticleFetchError`) do not catch; the failure is wrapped as
`LLMError` and surfaces as the generic HTTP 500 LLM-failure response instead
of the HTTP 400 fetch-failure response. -/
theorem c3_fetch_failure_surfaces_as_500 :
    ingest_url testLoader htmlFetchFail extractNone (fun _ _ => .ok "要約です")
        "https://example.com/a" (some "alice") =
      .error ⟨500, "要約の生成に失敗しました: " ++ "Failed to generate summary"⟩ := by
  decide

/-- C2 counterexample: the `/debate` path given the unknown persona id
`"bob"` does not fail with the 404 persona-not-found response: it succeeds,
answering with the metadata of the first loaded persona (`"alice"`). -/
theorem c2_counterexample :
    testLoader.get_persona "bob" = none ∧
    debate_article testLoader htmlFetchFail extractNone chatOk "bob" "やあ" [] =
      .ok ⟨"こんにちは", ⟨"アリス", "🎀", 0xFF66AA, "明るい案内役"⟩, 1⟩ := by
  decide

/-- C2 (amended): with an unknown, non-empty persona id the `/ingest` path
fails with `PersonaNotFoundError` mapped to HTTP 404 (provided the article
fetch, which runs first, succeeds); the `/debate` path instead falls back
silently to the first loaded persona and succeeds when the LLM call
succeeds. -/
theorem c2_amended_unknown_persona (loader : PersonaLoader)
    (htmlFetch : String → Except String String)
    (extract : String → Option (Option String × String))
    (llm : String → String → Except String String)
    (chat : List ConversationMessage → Except String String)
    (url pid user_message reply : String)
    (history : List ConversationMessage)
    (a : Article) (k : String) (p : Persona) (rest : List (String × Persona))
    (hpid : pid ≠ "")
    (hmiss : loader.get_persona pid = none)
    (hfetch : fetch_article htmlFetch extract url = .ok a)
    (hloader : loader.personas = (k, p) :: rest)
    (hchat : chat (⟨"system", p.get_system_message⟩ ::
        (history ++ [⟨"user", user_message⟩])) = .ok reply) :
    ingest_url loader htmlFetch extract llm url (some pid) =
      .error ⟨404, "ペルソナが見つかりません: "
        ++ ("Persona '" ++ pid ++ "' not found")⟩ ∧
    debate_article loader htmlFetch extract chat pid user_message history =
      .ok ⟨pyStrip reply, ⟨p.name, p.icon, p.color, p.description⟩,
        history.length + 1⟩ := by
  have htr : optTruthy (some pid) = true := by
    simp [optTruthy, hpid]
  have hsel : ArticleService.select_persona loader (some pid)
      = .error (.personaNotFoundError ("Persona '" ++ pid ++ "' not found")) := by
    simp [ArticleService.select_persona, htr, hmiss]
  have hgen : ArticleService.generate_summary loader htmlFetch extract llm url
      (some pid)
      = .error (.personaNotFoundError ("Persona '" ++ pid ++ "' not found")) := by
    simp [ArticleService.generate_summary, hfetch, except_bind_ok, hsel,
      except_bind_error]
  have hper : DebateService.debate_persona loader (some pid) = some p := by
    simp [DebateService.debate_persona, htr, hmiss,
      PersonaLoader.get_all_personas, dictCopy, hloader]
  have hne : ((history ++ [(⟨"user", user_message⟩ : ConversationMessage)])).isEmpty
      = false := by
    cases history <;> rfl
  have hresp : DebateService.conversation_response chat
      (history ++ [⟨"user", user_message⟩]) (some p) = .ok (pyStrip reply) := by
    simp [DebateService.conversation_response, hchat]
  constructor
  · simp [ingest_url, hgen]
  · simp [debate_article, DebateService.generate_debate, hper, hne, hresp,
      List.length_append]

/-- Witness for C2 (amended) at concrete stubs. -/
theorem c2_amended_witness :
    ingest_url testLoader htmlFetchOk extractOk
        (fun _ _ => .ok "要約です") "https://example.com/a" (some "bob") =
      .error ⟨404, "ペルソナが見つかりません: "
        ++ ("Persona '" ++ "bob" ++ "' not found")⟩ ∧
    debate_article testLoader htmlFetchOk extractOk chatOk "bob" "やあ" [] =
      .ok ⟨pyStrip "こんにちは", ⟨personaAlice.name, personaAlice.icon,
        personaAlice.color, personaAlice.description⟩, 1⟩ :=
  c2_amended_unknown_persona testLoader htmlFetchOk extractOk
    (fun _ _ => .ok "要約です") chatOk "https://example.com/a" "bob" "やあ"
    "こんにちは" [] ⟨"https://example.com/a", some "記事タイトル", "記事本文です", false⟩
    "alice" personaAlice [] (by decide) (by decide) (by decide) (by decide)
    (by decide)

/-- C6: on a successful `/ingest` with a fixed article stub and an explicit
loaded persona, the response carries that persona's name, icon, color and
description unchanged, and `article_url` equals the requested URL. -/
theorem c6_summary_returns_persona_metadata_unchanged
    (loader : PersonaLoader)
    (htmlFetch : String → Except String String)
    (extract : String → Option (Option String × String))
    (url pid html title content summary : String) (p : Persona)
    (hscheme : strStartsWith url "https://" = true)
    (hfetch : htmlFetch url = .ok html)
    (hextract : extract html = some (some title, content))
    (hcontent : content ≠ "")
    (hpid : pid ≠ "")
    (hp : loader.get_persona pid = some p) :
    ingest_url loader htmlFetch extract (fun _ _ => .ok summary) url (some pid) =
      .ok ⟨pyStrip summary, ⟨p.name, p.icon, p.color, p.description⟩,
        some title, url⟩ := by
  have htr : optTruthy (some pid) = true := by
    simp [optTruthy, hpid]
  have hok : fetch_article htmlFetch extract url =
      .ok ⟨url, some title,
        (if decide (max_content_length < content.length) = true then
          pyTake content max_content_length ++ "..." else content),
        decide (max_content_length < content.length)⟩ := by
    simp [fetch_article, hscheme, hfetch, hextract, hcontent]
  have hsel : ArticleService.select_persona loader (some pid) = .ok p := by
    simp [ArticleService.select_persona, htr, hp]
  have hgen : ArticleService.generate_summary loader htmlFetch extract
      (fun _ _ => .ok summary) url (some pid)
      = .ok ⟨pyStrip summary, ⟨p.name, p.icon, p.color, p.description⟩,
        some title, url⟩ := by
    simp [ArticleService.generate_summary, hok, except_bind_ok, hsel,
      ArticleService.generate_persona_summary, except_pure]
  simp [ingest_url, hgen]

/-- Witness for C6 at concrete stubs. -/
theorem c6_witness :
    ingest_url testLoader htmlFetchOk extractOk (fun _ _ => .ok "要約です")
        "https://example.com/a" (some "alice") =
      .ok ⟨pyStrip "要約です", ⟨personaAlice.name, personaAlice.icon,
        personaAlice.color, personaAlice.description⟩,
        some "記事タイトル", "https://example.com/a"⟩ :=
  c6_summary_returns_persona_metadata_unchanged testLoader htmlFetchOk
    extractOk "https://example.com/a" "alice" "<html>stub</html>"
    "記事タイトル" "記事本文です" "要約です" personaAlice (by decide) (by decide)
    (by decide) (by decide) (by decide) (by decide)

/-- Every single loader query leaves the loader state unchanged. -/
theorem runQuery_state (L : PersonaLoader) (q : LoaderQuery) :
    (L.runQuery q).2 = L := by
  cases q <;> rfl

/-- Caller-side dict operations never touch the loader's dict object. -/
theorem foldl_callerStep_loaderDict (ops : List DictOp) (v : CopyView) :
    (ops.foldl CopyView.callerStep v).loaderDict = v.loaderDict := by
  induction ops generalizing v with
  | nil => rfl
  | cons op rest ih =>
    rw [List.foldl_cons, ih]
    cases op <;> rfl

/-- C7: personas are immutable after load: any sequence of the four query
methods leaves the loader — its persona set and every persona attribute —
exactly as constructed, and `get_all_personas` hands out a copy equal to the
stored mapping whose caller-side mutations never alter the loader's stored
dict. -/
theorem c7_personas_immutable_after_load :
    (∀ (L : PersonaLoader) (qs : List LoaderQuery), L.runQueries qs = L) ∧
    (∀ (L : PersonaLoader),
        (L.get_all_personas_copy).callerDict = L.personas ∧
        ∀ (ops : List DictOp),
          (ops.foldl CopyView.callerStep L.get_all_personas_copy).loaderDict
            = L.personas) := by
  constructor
  · intro L qs
    induction qs generalizing L with
    | nil => rfl
    | cons q rest ih =>
      show PersonaLoader.runQueries (L.runQuery q).2 rest = L
      rw [runQuery_state]
      exact ih L
  · intro L
    refine ⟨?_, fun ops => ?_⟩
    · simp [PersonaLoader.get_all_personas_copy, dictCopy]
    · rw [foldl_callerStep_loaderDict]
      rfl

end LinkPersonaBot
